import Mathlib

/-!
Shallow embedding of `src/provision/kubernetes/deploy.go` (tsuru kubernetes
provisioner). Pure data and control flow are translated directly; cluster API
calls are modelled by explicit outcome parameters (environments) and by traces
of the calls the code issues. Replica counters are `int32` in the source and
are modelled as `Int` (the claims never exercise wrap-around).
-/

namespace TsuruKube

/-- Path constant `dockerSockPath` from deploy.go. -/
def dockerSockPath : String := "/var/run/docker.sock"

/-- Path constant `buildIntercontainerPath` from deploy.go. -/
def buildIntercontainerPath : String := "/tmp/intercontainer"

/-- Path constant `buildIntercontainerDone` from deploy.go. -/
def buildIntercontainerDone : String := buildIntercontainerPath ++ "/done"

/-- The string constant `deadlineExeceededProgressCond` (source spelling kept). -/
def deadlineExeceededProgressCond : String := "ProgressDeadlineExceeded"

/-- One entry of `dep.Status.Conditions`: only the two fields the code reads. -/
structure DeploymentCondition where
  ctype : String
  reason : String
deriving DecidableEq

/-- The fields of `dep.Status` read by `monitorDeployment`. -/
structure DeploymentStatus where
  observedGeneration : Int
  updatedReplicas : Int
  unavailableReplicas : Int
  replicas : Int
  conditions : List DeploymentCondition
deriving DecidableEq

/-- The local counters `oldUpdatedReplicas`, `oldReadyUnits`,
`oldPendingTermination` and whether `healthcheckTimeout` has been armed
(`healthcheckTimeout != nil`) inside `monitorDeployment`. -/
structure RolloutCounters where
  oldUpdatedReplicas : Int
  oldReadyUnits : Int
  oldPendingTermination : Int
  healthcheckArmed : Bool
deriving DecidableEq

/-- Counter values at entry of the convergence loop of `monitorDeployment`. -/
def initialRolloutCounters : RolloutCounters :=
  { oldUpdatedReplicas := -1, oldReadyUnits := -1, oldPendingTermination := -1,
    healthcheckArmed := false }

/-- One progress line written by an iteration of the convergence loop. -/
inductive ProgressLine where
  | unitsCreated (updated spec : Int)
  | waitingHealthcheck (spec : Int)
  | unitsReady (ready spec : Int)
  | pendingTermination (pending : Int)
deriving DecidableEq

/-- True for the `%d of %d new units created` line. -/
def ProgressLine.isUnitsCreated : ProgressLine → Bool
  | .unitsCreated _ _ => true
  | _ => false

/-- True for the `%d of %d new units ready` line. -/
def ProgressLine.isUnitsReady : ProgressLine → Bool
  | .unitsReady _ _ => true
  | _ => false

/-- True for the `%d old units pending termination` line. -/
def ProgressLine.isPendingTermination : ProgressLine → Bool
  | .pendingTermination _ => true
  | _ => false

/-- How one iteration of the convergence loop of `monitorDeployment` ends:
it returns nil after the `break` (success), returns the progress-deadline
error naming the deployment, or falls through to the `select` and the next
iteration. -/
inductive StepOutcome where
  | success
  | deadlineExceeded (depName : String)
  | continueLoop
deriving DecidableEq

/-- Result of one iteration of the convergence loop. -/
structure StepResult where
  lines : List ProgressLine
  counters : RolloutCounters
  outcome : StepOutcome
deriving DecidableEq

/-- The check `c.Type == v1beta2.DeploymentProgressing && c.Reason ==
deadlineExeceededProgressCond` over `dep.Status.Conditions`. -/
def hasDeadlineExceededCond (st : DeploymentStatus) : Bool :=
  st.conditions.any fun c =>
    c.ctype == "Progressing" && c.reason == deadlineExeceededProgressCond

/-- One iteration of the convergence loop of `monitorDeployment`, from the top
of the `for` body down to the `break` test. `allInit` and `allInitOk` are the
value and error-freedom of the `allNewPodsRunning` call (only consulted when
the healthcheck timer is not yet armed and all new replicas are updated). -/
def monitorStep (depName : String) (specReplicas : Int) (allInit allInitOk : Bool)
    (rc : RolloutCounters) (st : DeploymentStatus) : StepResult :=
  if hasDeadlineExceededCond st = true then
    { lines := [], counters := rc, outcome := .deadlineExceeded depName }
  else
    let l1 : List ProgressLine :=
      if rc.oldUpdatedReplicas ≠ st.updatedReplicas then
        [.unitsCreated st.updatedReplicas specReplicas]
      else []
    let armNow : Bool :=
      !rc.healthcheckArmed && st.updatedReplicas == specReplicas &&
        allInit && allInitOk
    let l2 : List ProgressLine :=
      if armNow = true then [.waitingHealthcheck specReplicas] else []
    let readyUnits : Int := st.updatedReplicas - st.unavailableReplicas
    let l3 : List ProgressLine :=
      if rc.oldReadyUnits ≠ readyUnits ∧ readyUnits ≥ 0 then
        [.unitsReady readyUnits specReplicas]
      else []
    let pendingTermination : Int := st.replicas - st.updatedReplicas
    let l4 : List ProgressLine :=
      if rc.oldPendingTermination ≠ pendingTermination ∧ pendingTermination > 0 then
        [.pendingTermination pendingTermination]
      else []
    { lines := l1 ++ l2 ++ l3 ++ l4,
      counters :=
        { oldUpdatedReplicas := st.updatedReplicas,
          oldReadyUnits := readyUnits,
          oldPendingTermination := pendingTermination,
          healthcheckArmed := rc.healthcheckArmed || armNow },
      outcome :=
        if readyUnits = specReplicas ∧ st.replicas = specReplicas then .success
        else .continueLoop }

/-- The subset of tsuru configuration read by the pull-secret and registry
auth helpers: `docker:registry`, `docker:registry-auth:username` and
`docker:registry-auth:password` (an unset key reads as the empty string,
exactly as `config.GetString` with a discarded error does). -/
structure RegistryConfig where
  registry : String
  username : String
  password : String
deriving DecidableEq

/-- The registry-domain prefix of an image reference:
`strings.Split(image, "/")[0]`, i.e. the prefix before the first slash
(the whole string when it has no slash). -/
def imgDomain (img : String) : String :=
  String.mk (img.toList.takeWhile fun c => c ≠ '/')

/-- Modelled from the spec: `registrySecretName` is defined outside the
provided source; per the data model a registry pull secret is a credential
bundle keyed by the registry hostname. Only the keying matters here, not the
exact rendering of the name. -/
def registrySecretName (registry : String) : String := "registry-" ++ registry

/-- The secret object written by `ensureAuthSecret`: its name and the
credentials serialized into it. -/
structure AuthSecret where
  name : String
  username : String
  password : String
deriving DecidableEq

/-- `ensureAuthSecret`: the secret it updates (falling back to create), or
`none` when username and password are both unset, in which case nothing is
written at all. -/
def ensureAuthSecret (cfg : RegistryConfig) : Option AuthSecret :=
  if cfg.username = "" ∧ cfg.password = "" then none
  else
    some { name := registrySecretName cfg.registry,
           username := cfg.username, password := cfg.password }

/-- `getImagePullSecrets`: the first component is the secret written (if
any), the second the list of local object references returned (`none` models
the nil slice). -/
def getImagePullSecrets (cfg : RegistryConfig) (images : List String) :
    Option AuthSecret × Option (List String) :=
  if (images.any fun img => imgDomain img == cfg.registry) = true then
    (ensureAuthSecret cfg, some [registrySecretName cfg.registry])
  else (none, none)

/-- `registryAuth`: the username, password and domain handed to the sidecar
for its first destination image. -/
def registryAuth (cfg : RegistryConfig) (img : String) :
    String × String × String :=
  if imgDomain img ≠ cfg.registry then ("", "", "")
  else if cfg.username = "" ∧ cfg.password = "" then ("", "", "")
  else (cfg.username, cfg.password, imgDomain img)

/-- One `VolumeMount` of a container. -/
structure VolumeMount where
  name : String
  mountPath : String
deriving DecidableEq

/-- The container fields the build and inspect pod literals populate. -/
structure Container where
  name : String
  image : String
  command : List String
  env : List (String × String)
  volumeMounts : List VolumeMount
deriving DecidableEq

/-- The target-container command: poll until the sentinel file appears. -/
def waitForSentinelCmd : String :=
  "while [ ! -f " ++ buildIntercontainerDone ++ " ]; do sleep 5; done"

/-- The build sidecar shell script: a trap writes the sentinel on exit, stdin
is saved to the input file, then the build command (`cmds[2:]` joined) runs. -/
def buildSidecarScript (inputFile buildCmd : String) : String :=
  "\n\t\t\t\t\t\t\t\tend() \x7b touch " ++ buildIntercontainerDone ++ "; \x7d\n" ++
  "\t\t\t\t\t\t\t\ttrap end EXIT\n" ++
  "\t\t\t\t\t\t\t\tmkdir -p $(dirname " ++ inputFile ++ ") && cat >" ++
  inputFile ++ " && " ++ buildCmd ++ "\n\t\t\t\t\t\t\t"

/-- The inspect sidecar shell script. -/
def inspectSidecarScript : String :=
  "\n\t\t\t\t\t\t\t\tend() \x7b touch " ++ buildIntercontainerDone ++ "; \x7d\n" ++
  "\t\t\t\t\t\t\t\ttrap end EXIT\n" ++
  "\t\t\t\t\t\t\t\tcat >/dev/null && /bin/deploy-agent\n\t\t\t\t\t\t\t"

/-- The inputs of `createPod` (`createPodParams` plus the values fetched from
collaborators: app envs, volume mounts, run-as user, sidecar image). -/
structure CreatePodParams where
  podName : String
  cmds : List String
  sourceImage : String
  destinationImages : List String
  inputFile : String
  hasAttachInput : Bool
  appEnvs : List (String × String)
  extraMounts : List VolumeMount
  runAsUser : String
  sidecarImage : String
deriving DecidableEq

/-- The two-container pod literal built inside `createPod`. -/
def buildPodContainers (cfg : RegistryConfig) (p : CreatePodParams) :
    List Container :=
  let reg := registryAuth cfg (p.destinationImages.headD "")
  [ { name := p.podName, image := p.sourceImage,
      command := ["/bin/sh", "-ec", waitForSentinelCmd],
      env := p.appEnvs,
      volumeMounts :=
        { name := "intercontainer", mountPath := buildIntercontainerPath } ::
          p.extraMounts },
    { name := "committer-cont", image := p.sidecarImage,
      command := ["sh", "-ec",
        buildSidecarScript p.inputFile (String.intercalate " " (p.cmds.drop 2))],
      env := [("DEPLOYAGENT_RUN_AS_SIDECAR", "true"),
              ("DEPLOYAGENT_DESTINATION_IMAGES",
                String.intercalate "," p.destinationImages),
              ("DEPLOYAGENT_INPUT_FILE", p.inputFile),
              ("DEPLOYAGENT_RUN_AS_USER", p.runAsUser),
              ("DEPLOYAGENT_REGISTRY_AUTH_USER", reg.1),
              ("DEPLOYAGENT_REGISTRY_AUTH_PASS", reg.2.1),
              ("DEPLOYAGENT_REGISTRY_ADDRESS", reg.2.2)],
      volumeMounts :=
        { name := "dockersock", mountPath := dockerSockPath } ::
        { name := "intercontainer", mountPath := buildIntercontainerPath } ::
          p.extraMounts } ]

/-- The mount path of the sentinel (intercontainer) volume in a container. -/
def sentinelMountPath (c : Container) : Option String :=
  (c.volumeMounts.find? fun m => m.name == "intercontainer").map
    fun m => m.mountPath

/-- Errors of the pod pipelines. -/
inductive PodErr where
  | unexpectedCmds (cmds : List String)
  | noDestinationImages
  | external (msg : String)
  | attachFailed (pod cont : String) (msg : String)
  | multi (msgs : List String)
deriving DecidableEq

/-- Calls issued against the cluster API by the pod pipelines. -/
inductive PodAction where
  | createPodOnCluster (containers : List Container)
deriving DecidableEq

/-- Outcomes of the collaborator and cluster calls made by `createPod`, in
program order (`none` = the call succeeded). -/
structure CreatePodEnv where
  saErr : Option String
  labelsErr : Option String
  volumesErr : Option String
  pullErr : Option String
  podCreateErr : Option String
  watchErr : Option String
  waitRunningErr : Option String
  attachErr : Option String
  waitPodErr : Option String
deriving DecidableEq

/-- `createPod`: validates the command list and destination images, ensures
the service account, labels, volumes and pull secrets, creates the pod,
waits for its containers, optionally attaches, and waits for completion.
Returns the trace of cluster pod-creation calls and the error (if any). -/
def createPod (cfg : RegistryConfig) (env : CreatePodEnv) (p : CreatePodParams) :
    List PodAction × Option PodErr :=
  if p.cmds.length ≠ 3 then ([], some (PodErr.unexpectedCmds p.cmds))
  else if p.destinationImages = [] then ([], some PodErr.noDestinationImages)
  else
    match env.saErr with
    | some e => ([], some (PodErr.external e))
    | none =>
    match env.labelsErr with
    | some e => ([], some (PodErr.external e))
    | none =>
    match env.volumesErr with
    | some e => ([], some (PodErr.external e))
    | none =>
    match env.pullErr with
    | some e => ([], some (PodErr.external e))
    | none =>
      let act := PodAction.createPodOnCluster (buildPodContainers cfg p)
      match env.podCreateErr with
      | some e => ([act], some (PodErr.external e))
      | none =>
      match env.watchErr with
      | some e => ([act], some (PodErr.external e))
      | none =>
      match env.waitRunningErr with
      | some e => ([act], some (PodErr.external e))
      | none =>
        if p.hasAttachInput = true then
          match env.attachErr with
          | some e => ([act], some (PodErr.attachFailed p.podName "committer-cont" e))
          | none =>
            match env.waitPodErr with
            | some e => ([act], some (PodErr.external e))
            | none => ([act], none)
        else
          match env.waitPodErr with
          | some e => ([act], some (PodErr.external e))
          | none => ([act], none)

/-- `createDeployPod`: rejects an empty destination list, resolves the pod
name, sets the deploy commands, extends the destination list with
`repository:latest` when the first destination tag is not `latest`, then
defers to `createPod`. The image-name splitter (`image.SplitImageName`,
outside this file) is a parameter. -/
def createDeployPod (cfg : RegistryConfig) (env : CreatePodEnv)
    (split : String → String × String) (deployCmds : List String)
    (computedPodName : Except String String) (p : CreatePodParams) :
    List PodAction × Option PodErr :=
  match p.destinationImages with
  | [] => ([], some PodErr.noDestinationImages)
  | d :: rest =>
    match (if p.podName = "" then computedPodName else Except.ok p.podName) with
    | Except.error e => ([], some (PodErr.external e))
    | Except.ok name =>
      let repoTag := split d
      let dsts :=
        if repoTag.2 ≠ "latest" then (d :: rest) ++ [repoTag.1 ++ ":latest"]
        else d :: rest
      createPod cfg env
        { p with podName := name, cmds := deployCmds, destinationImages := dsts }

/-- The inputs of `runInspectSidecar`. -/
structure InspectParams where
  sourceImage : String
  podName : String
  destinationImages : List String
  inspectImage : String
deriving DecidableEq

/-- Outcomes of the collaborator and cluster calls made by
`runInspectSidecar`, in program order. -/
structure InspectEnv where
  saErr : Option String
  labelsErr : Option String
  pullErr : Option String
  podCreateErr : Option String
  waitRunningErr : Option String
  attachErr : Option String
  waitPodErr : Option String
deriving DecidableEq

/-- The two-container pod literal built inside `runInspectSidecar` (no app
volumes and no app env here, unlike the build pod). -/
def inspectPodContainers (cfg : RegistryConfig) (p : InspectParams) :
    List Container :=
  let reg := registryAuth cfg (p.destinationImages.headD "")
  [ { name := p.podName, image := p.sourceImage,
      command := ["/bin/sh", "-ec", waitForSentinelCmd],
      env := [],
      volumeMounts :=
        [{ name := "intercontainer", mountPath := buildIntercontainerPath }] },
    { name := "inspect-cont", image := p.inspectImage,
      command := ["sh", "-ec", inspectSidecarScript],
      env := [("DEPLOYAGENT_RUN_AS_SIDECAR", "true"),
              ("DEPLOYAGENT_DESTINATION_IMAGES",
                String.intercalate "," p.destinationImages),
              ("DEPLOYAGENT_SOURCE_IMAGE", p.sourceImage),
              ("DEPLOYAGENT_REGISTRY_AUTH_USER", reg.1),
              ("DEPLOYAGENT_REGISTRY_AUTH_PASS", reg.2.1),
              ("DEPLOYAGENT_REGISTRY_ADDRESS", reg.2.2)],
      volumeMounts :=
        [{ name := "dockersock", mountPath := dockerSockPath },
         { name := "intercontainer", mountPath := buildIntercontainerPath }] } ]

/-- `runInspectSidecar`: like `createPod` but for the inspect pod; the
container-running wait and the attach accumulate into one multi-error. -/
def runInspectSidecar (cfg : RegistryConfig) (env : InspectEnv)
    (p : InspectParams) : List PodAction × Option PodErr :=
  if p.destinationImages = [] then ([], some PodErr.noDestinationImages)
  else
    match env.saErr with
    | some e => ([], some (PodErr.external e))
    | none =>
    match env.labelsErr with
    | some e => ([], some (PodErr.external e))
    | none =>
    match env.pullErr with
    | some e => ([], some (PodErr.external e))
    | none =>
      let act := PodAction.createPodOnCluster (inspectPodContainers cfg p)
      match env.podCreateErr with
      | some e => ([act], some (PodErr.external e))
      | none =>
        let errs :=
          (match env.waitRunningErr with | some e => [e] | none => []) ++
          (match env.attachErr with | some e => [e] | none => [])
        if errs ≠ [] then ([act], some (PodErr.multi errs))
        else
          match env.waitPodErr with
          | some e => ([act], some (PodErr.external e))
          | none => ([act], none)

/-- The destination-image list computed by `imageTagAndPush` before invoking
the inspect sidecar: the new image plus `repository:latest` when the new
image tag is not already `latest`. -/
def tagAndPushDestinations (split : String → String × String)
    (newImage : String) : List String :=
  let destImages := [newImage]
  let repoTag := split newImage
  if repoTag.2 ≠ "latest" then destImages ++ [repoTag.1 ++ ":latest"]
  else destImages

/-- `imageTagAndPush`: resolves the deploy pod name and labels, runs the
inspect sidecar over the (possibly latest-extended) destination list, wraps a
sidecar failure, then decodes the captured JSON payload (its success is the
`decodeOk` parameter). -/
def imageTagAndPush (cfg : RegistryConfig) (env : InspectEnv)
    (split : String → String × String) (computedPodName : Except String String)
    (labelsErr : Option String) (decodeOk : Bool)
    (oldImage newImage inspectImage : String) : List PodAction × Option PodErr :=
  match computedPodName with
  | Except.error e => ([], some (PodErr.external e))
  | Except.ok podName =>
  match labelsErr with
  | some e => ([], some (PodErr.external e))
  | none =>
    let res := runInspectSidecar cfg env
      { sourceImage := oldImage, podName := podName,
        destinationImages := tagAndPushDestinations split newImage,
        inspectImage := inspectImage }
    match res.2 with
    | some _ => (res.1, some (PodErr.external "unable to pull and tag image"))
    | none =>
      if decodeOk = true then (res.1, none)
      else (res.1, some (PodErr.external "invalid image inspect response"))

/-- A sample image-name splitter used only in concrete witnesses; the claim
theorems quantify over the splitter because `image.SplitImageName` lives
outside this file. -/
def splitColon (s : String) : String × String :=
  if (s.toList.any fun c => c == ':') = true then
    (String.mk (s.toList.takeWhile fun c => c ≠ ':'),
     String.mk ((s.toList.dropWhile fun c => c ≠ ':').drop 1))
  else (s, "latest")

/-- A `createPod` environment in which every collaborator call succeeds. -/
def envAllOk : CreatePodEnv :=
  { saErr := none, labelsErr := none, volumesErr := none, pullErr := none,
    podCreateErr := none, watchErr := none, waitRunningErr := none,
    attachErr := none, waitPodErr := none }

/-- A configuration with a private registry and no credentials. -/
def regNoCreds : RegistryConfig :=
  { registry := "reg.example.com", username := "", password := "" }

/-- Concrete `createPod` parameters with a two-element command list. -/
def podParamsTwoCmds : CreatePodParams :=
  { podName := "myapp-build", cmds := ["download", "extract"],
    sourceImage := "base/app", destinationImages := ["reg.example.com/app:v2"],
    inputFile := "/home/application/archive.tar.gz", hasAttachInput := true,
    appEnvs := [], extraMounts := [], runAsUser := "1000",
    sidecarImage := "tsuru/deploy-agent" }

/-- Concrete parameters for a deploy pod whose destination tag is `v2`. -/
def podParamsDeploy : CreatePodParams :=
  { podName := "myapp-deploy", cmds := [],
    sourceImage := "reg.example.com/app:v1",
    destinationImages := ["reg.example.com/app:v2"],
    inputFile := "/dev/null", hasAttachInput := true,
    appEnvs := [], extraMounts := [], runAsUser := "1000",
    sidecarImage := "tsuru/deploy-agent" }

/-- Sample three-element deploy command list for witnesses. -/
def deployCmdsSample : List String :=
  ["/var/lib/tsuru/deploy", "archive", "deploy"]

/-- Kubernetes API errors, discriminated the way the code does. -/
inductive K8sErr where
  | notFound (msg : String)
  | alreadyExists (msg : String)
  | other (msg : String)
deriving DecidableEq

/-- `k8sErrors.IsNotFound`. -/
def isNotFound : K8sErr → Bool
  | .notFound _ => true
  | _ => false

/-- `k8sErrors.IsAlreadyExists`. -/
def isAlreadyExists : K8sErr → Bool
  | .alreadyExists _ => true
  | _ => false

/-- The deployment data `CurrentLabels` reads: the labels of the pod
template metadata (`dep.Spec.Template.ObjectMeta`). -/
structure K8sDeployment where
  name : String
  templateLabels : List (String × String)
deriving DecidableEq

/-- `serviceManager.CurrentLabels`, as a function of the outcome of the
deployment Get: nil labels and nil error when the deployment does not
exist, the error itself for any other failure, the template label set on
success. -/
def currentLabels (getRes : Except K8sErr K8sDeployment) :
    Except K8sErr (Option (List (String × String))) :=
  match getRes with
  | Except.error e =>
    if isNotFound e = true then Except.ok none else Except.error e
  | Except.ok dep => Except.ok (some dep.templateLabels)

/-- Modelled from the spec: `ClusterClient.OvercommitFactor` is outside the
provided source; per the spec, a zero or unset per-pool overcommit factor is
a configuration error that must fail fast, and a configured nonzero factor
is returned unchanged. -/
def overcommitFactor (poolFactor : Option Int) : Except String Int :=
  match poolFactor with
  | none => Except.error "overcommit factor unset"
  | some f =>
    if f = 0 then Except.error "overcommit factor is zero" else Except.ok f

/-- Computed memory limit and request of the app container. -/
structure ResourceReqs where
  memoryLimit : Option Int
  memoryRequest : Option Int
deriving DecidableEq

/-- The resource computation of `createAppDeployment`: the overcommit lookup
comes first and its failure aborts with the wrapping message; with nonzero
declared memory, the limit is the declared memory and the request is the
declared memory divided by the factor; zero declared memory sets neither. -/
def computeAppResources (poolFactor : Option Int) (memory : Int) :
    Except String ResourceReqs :=
  match overcommitFactor poolFactor with
  | Except.error e =>
    Except.error ("misconfigured cluster overcommit factor: " ++ e)
  | Except.ok oc =>
    if memory ≠ 0 then
      Except.ok { memoryLimit := some memory, memoryRequest := some (memory / oc) }
    else Except.ok { memoryLimit := none, memoryRequest := none }

/-- Errors returned by `DeployService`. -/
inductive DeployErr where
  | plain (msg : String)
  | k8s (e : K8sErr)
  | unitStartup (msg : String)
deriving DecidableEq

/-- Lines `DeployService` writes to the output sink around rollback. -/
inductive OutLine where
  | rollingBack (msg : String)
  | rollbackFailed (msg : String)
deriving DecidableEq

/-- Cluster mutations issued by `DeployService`. -/
inductive DeployAction where
  | applyDeployment
  | rollback
  | createService
  | createHeadlessService
deriving DecidableEq

/-- Outcomes of the calls `DeployService` makes, in program order. The
deployment apply is split into `createDepPreErr` (a failure inside
`createAppDeployment` before the Create/Update call) and `applyErr` (the
Create/Update call itself failing); the monitor and the rollback are
abstracted by their error outcome. -/
structure DeployEnv where
  nodeContainersErr : Option String
  saErr : Option String
  getDepErr : Option K8sErr
  listEventsErr : Option String
  createDepPreErr : Option String
  applyErr : Option String
  monitorErr : Option String
  rollbackErr : Option String
  svcCreateErr : Option K8sErr
  headlessCreateErr : Option K8sErr
deriving DecidableEq

/-- A Get error as `DeployService` treats it: not-found is tolerated (the
previous deployment is simply nil), anything else aborts. -/
def fatalGetErr : Option K8sErr → Option K8sErr
  | some e => if isNotFound e = true then none else some e
  | none => none

/-- A service Create error as `DeployService` treats it: already-exists is
tolerated, anything else aborts. -/
def fatalSvcErr : Option K8sErr → Option K8sErr
  | some e => if isAlreadyExists e = true then none else some e
  | none => none

/-- The service-exposure tail of `DeployService`: the load-balanced service,
then the headless service, each created idempotently. -/
def deployServiceServices (env : DeployEnv) :
    List DeployAction × Option DeployErr :=
  match fatalSvcErr env.svcCreateErr with
  | some e => ([DeployAction.createService], some (DeployErr.k8s e))
  | none =>
    match fatalSvcErr env.headlessCreateErr with
    | some e =>
      ([DeployAction.createService, DeployAction.createHeadlessService],
       some (DeployErr.k8s e))
    | none =>
      ([DeployAction.createService, DeployAction.createHeadlessService], none)

/-- `serviceManager.DeployService`: node containers, service account, read of
the previous deployment (not-found tolerated), event resume-token snapshot,
deployment create/update, rollout monitor with rollback on monitor failure,
then service exposure. Returns the cluster-mutation trace, the output lines
written around rollback, and the returned error. -/
def deployService (env : DeployEnv) :
    List DeployAction × List OutLine × Option DeployErr :=
  match env.nodeContainersErr with
  | some e => ([], [], some (DeployErr.plain e))
  | none =>
  match env.saErr with
  | some e => ([], [], some (DeployErr.plain e))
  | none =>
  match fatalGetErr env.getDepErr with
  | some e => ([], [], some (DeployErr.k8s e))
  | none =>
  match env.listEventsErr with
  | some e => ([], [], some (DeployErr.plain e))
  | none =>
  match env.createDepPreErr with
  | some e => ([], [], some (DeployErr.plain e))
  | none =>
  match env.applyErr with
  | some e => ([DeployAction.applyDeployment], [], some (DeployErr.plain e))
  | none =>
  match env.monitorErr with
  | some e =>
    match env.rollbackErr with
    | some re =>
      ([DeployAction.applyDeployment, DeployAction.rollback],
       [OutLine.rollingBack e, OutLine.rollbackFailed re],
       some (DeployErr.unitStartup e))
    | none =>
      ([DeployAction.applyDeployment, DeployAction.rollback],
       [OutLine.rollingBack e],
       some (DeployErr.unitStartup e))
  | none =>
    (DeployAction.applyDeployment :: (deployServiceServices env).1, [],
     (deployServiceServices env).2)

/-- True when every step up to and including the deployment create/update
succeeded. -/
def appliedOK (env : DeployEnv) : Bool :=
  env.nodeContainersErr.isNone && env.saErr.isNone &&
  (fatalGetErr env.getDepErr).isNone && env.listEventsErr.isNone &&
  env.createDepPreErr.isNone && env.applyErr.isNone

/-- An environment whose monitor and rollback both fail. -/
def deployEnvRB : DeployEnv :=
  { nodeContainersErr := none, saErr := none, getDepErr := none,
    listEventsErr := none, createDepPreErr := none, applyErr := none,
    monitorErr := some "monitor timeout",
    rollbackErr := some "rollback refused",
    svcCreateErr := none, headlessCreateErr := none }

/-- A status used as a concrete counterexample: a condition carries the
progress-deadline reason but its type is not `Progressing`. -/
def statusDeadlineWrongType : DeploymentStatus :=
  { observedGeneration := 1, updatedReplicas := 0, unavailableReplicas := 0,
    replicas := 0,
    conditions := [{ ctype := "Available", reason := "ProgressDeadlineExceeded" }] }

/-- A status with a genuine progress-deadline condition. -/
def statusDeadlineHit : DeploymentStatus :=
  { observedGeneration := 1, updatedReplicas := 3, unavailableReplicas := 0,
    replicas := 3,
    conditions := [{ ctype := "Progressing", reason := "ProgressDeadlineExceeded" }] }

/-- The scenario status: desired 3, updated 3, unavailable 0, total 3. -/
def statusConverged : DeploymentStatus :=
  { observedGeneration := 2, updatedReplicas := 3, unavailableReplicas := 0,
    replicas := 3, conditions := [] }

/-- A mid-rollout status: updated 2, one unavailable, one old replica left. -/
def statusMidRollout : DeploymentStatus :=
  { observedGeneration := 2, updatedReplicas := 2, unavailableReplicas := 1,
    replicas := 3, conditions := [] }

end TsuruKube

namespace TsuruKube

/-- Claim C1: with no progress-deadline condition reported, an iteration of the
convergence loop of `monitorDeployment` terminates the monitor successfully
exactly when the ready-replica count (updated minus unavailable) equals the
desired replica count and the total replica count equals the desired count. -/
theorem monitor_success_iff_replicas_converged (dn : String) (spec : Int)
    (a b : Bool) (rc : RolloutCounters) (st : DeploymentStatus)
    (h : hasDeadlineExceededCond st = false) :
    (monitorStep dn spec a b rc st).outcome = StepOutcome.success ↔
      (st.updatedReplicas - st.unavailableReplicas = spec ∧ st.replicas = spec) := by
  unfold monitorStep
  rw [if_neg (by simp [h])]
  by_cases hc : st.updatedReplicas - st.unavailableReplicas = spec ∧ st.replicas = spec
  · simp only [hc, if_pos hc]
    simp
  · simp only [if_neg hc]
    simp [hc]

/-- Witness for C1: the scenario desired = 3, updated = 3, unavailable = 0,
total = 3 makes the monitor terminate successfully. -/
theorem monitor_success_iff_replicas_converged_witness :
    (monitorStep "myapp-web" 3 true true initialRolloutCounters statusConverged).outcome =
      StepOutcome.success :=
  (monitor_success_iff_replicas_converged "myapp-web" 3 true true
    initialRolloutCounters statusConverged (by decide)).mpr (by decide)

/-- Claim C4, counterexample: a status condition whose reason is
`ProgressDeadlineExceeded` but whose type is not `Progressing` does not make
the monitor fail; the iteration just continues, because the code also
requires `c.Type == v1beta2.DeploymentProgressing`. -/
theorem monitor_deadline_reason_without_progressing_type_ignored :
    (monitorStep "mydep" 1 true true initialRolloutCounters
        statusDeadlineWrongType).outcome = StepOutcome.continueLoop ∧
    statusDeadlineWrongType.conditions.any
      (fun c => c.reason == deadlineExeceededProgressCond) = true := by
  decide

/-- Claim C4 (amended): if any status condition of type `Progressing` reports
the reason `ProgressDeadlineExceeded`, the iteration fails immediately with
the error naming the deployment, regardless of the replica counters. -/
theorem monitor_fails_on_progress_deadline (dn : String) (spec : Int)
    (a b : Bool) (rc : RolloutCounters) (st : DeploymentStatus)
    (h : hasDeadlineExceededCond st = true) :
    (monitorStep dn spec a b rc st).outcome = StepOutcome.deadlineExceeded dn := by
  unfold monitorStep
  rw [if_pos h]

/-- Witness for the amended C4: a deployment with converged counters still
fails when a Progressing condition reports the deadline reason. -/
theorem monitor_fails_on_progress_deadline_witness :
    (monitorStep "mydep" 3 true true initialRolloutCounters statusDeadlineHit).outcome =
      StepOutcome.deadlineExceeded "mydep" :=
  monitor_fails_on_progress_deadline "mydep" 3 true true initialRolloutCounters
    statusDeadlineHit (by decide)

/-- After a non-failing iteration, the saved counters are exactly the values
computed from the status of that iteration (the unconditional assignments to
`oldUpdatedReplicas`, `oldReadyUnits`, `oldPendingTermination`). -/
theorem monitorStep_counters_track_status (dn : String) (spec : Int)
    (a b : Bool) (rc : RolloutCounters) (st : DeploymentStatus)
    (hd : hasDeadlineExceededCond st = false) :
    (monitorStep dn spec a b rc st).counters.oldUpdatedReplicas = st.updatedReplicas ∧
    (monitorStep dn spec a b rc st).counters.oldReadyUnits =
      st.updatedReplicas - st.unavailableReplicas ∧
    (monitorStep dn spec a b rc st).counters.oldPendingTermination =
      st.replicas - st.updatedReplicas := by
  unfold monitorStep
  rw [if_neg (by simp [hd])]
  exact ⟨rfl, rfl, rfl⟩

/-- Claim C8: across two consecutive iterations of the convergence loop, a
progress line for the updated count, the ready count or the
pending-termination count is emitted in the second iteration only when that
counter differs from its value in the first iteration: an unchanged counter
yields no such line. -/
theorem monitor_no_duplicate_progress_lines (dn : String) (spec : Int)
    (a1 b1 a2 b2 : Bool) (rc : RolloutCounters) (st1 st2 : DeploymentStatus)
    (h : (monitorStep dn spec a1 b1 rc st1).outcome = StepOutcome.continueLoop) :
    (st2.updatedReplicas = st1.updatedReplicas →
      ((monitorStep dn spec a2 b2 (monitorStep dn spec a1 b1 rc st1).counters
        st2).lines.filter ProgressLine.isUnitsCreated) = []) ∧
    (st2.updatedReplicas - st2.unavailableReplicas =
        st1.updatedReplicas - st1.unavailableReplicas →
      ((monitorStep dn spec a2 b2 (monitorStep dn spec a1 b1 rc st1).counters
        st2).lines.filter ProgressLine.isUnitsReady) = []) ∧
    (st2.replicas - st2.updatedReplicas = st1.replicas - st1.updatedReplicas →
      ((monitorStep dn spec a2 b2 (monitorStep dn spec a1 b1 rc st1).counters
        st2).lines.filter ProgressLine.isPendingTermination) = []) := by
  by_cases hd1 : hasDeadlineExceededCond st1 = true
  · exfalso
    unfold monitorStep at h
    rw [if_pos hd1] at h
    exact StepOutcome.noConfusion h
  · have hd1f : hasDeadlineExceededCond st1 = false := by
      revert hd1; cases hasDeadlineExceededCond st1 <;> simp
    obtain ⟨e1, e2, e3⟩ :=
      monitorStep_counters_track_status dn spec a1 b1 rc st1 hd1f
    set K := (monitorStep dn spec a1 b1 rc st1).counters with hK
    refine ⟨?_, ?_, ?_⟩ <;> intro heq <;>
      by_cases hd2 : hasDeadlineExceededCond st2 = true
    · simp [monitorStep, hd2]
    · unfold monitorStep
      rw [if_neg (by simp [hd2])]
      simp only [List.filter_append, List.append_eq_nil]
      refine ⟨⟨⟨?_, ?_⟩, ?_⟩, ?_⟩ <;> split <;>
        simp_all [ProgressLine.isUnitsCreated, ProgressLine.isUnitsReady,
          ProgressLine.isPendingTermination]
    · simp [monitorStep, hd2]
    · unfold monitorStep
      rw [if_neg (by simp [hd2])]
      simp only [List.filter_append, List.append_eq_nil]
      refine ⟨⟨⟨?_, ?_⟩, ?_⟩, ?_⟩ <;> split <;>
        simp_all [ProgressLine.isUnitsCreated, ProgressLine.isUnitsReady,
          ProgressLine.isPendingTermination]
    · simp [monitorStep, hd2]
    · unfold monitorStep
      rw [if_neg (by simp [hd2])]
      simp only [List.filter_append, List.append_eq_nil]
      refine ⟨⟨⟨?_, ?_⟩, ?_⟩, ?_⟩ <;> split <;>
        simp_all [ProgressLine.isUnitsCreated, ProgressLine.isUnitsReady,
          ProgressLine.isPendingTermination]

/-- Witness for C8: after an iteration that observed `statusMidRollout`, a
second iteration observing the same counters emits none of the three
progress lines. -/
theorem monitor_no_duplicate_progress_lines_witness :
    ((monitorStep "w" 3 true true
      (monitorStep "w" 3 true true initialRolloutCounters statusMidRollout).counters
      statusMidRollout).lines.filter ProgressLine.isUnitsCreated) = [] ∧
    ((monitorStep "w" 3 true true
      (monitorStep "w" 3 true true initialRolloutCounters statusMidRollout).counters
      statusMidRollout).lines.filter ProgressLine.isUnitsReady) = [] ∧
    ((monitorStep "w" 3 true true
      (monitorStep "w" 3 true true initialRolloutCounters statusMidRollout).counters
      statusMidRollout).lines.filter ProgressLine.isPendingTermination) = [] :=
  ⟨(monitor_no_duplicate_progress_lines "w" 3 true true true true
      initialRolloutCounters statusMidRollout statusMidRollout (by decide)).1 rfl,
   (monitor_no_duplicate_progress_lines "w" 3 true true true true
      initialRolloutCounters statusMidRollout statusMidRollout (by decide)).2.1 rfl,
   (monitor_no_duplicate_progress_lines "w" 3 true true true true
      initialRolloutCounters statusMidRollout statusMidRollout (by decide)).2.2 rfl⟩

/-- Claim C3, counterexample: with an image on the configured private
registry and username and password both absent, no secret is created, yet a
reference to the (never created) pull secret is still returned — the code
returns the reference whenever some image domain matches, regardless of
credentials. -/
theorem pull_secret_referenced_without_credentials :
    (getImagePullSecrets regNoCreds ["reg.example.com/app:v2"]).1 = none ∧
    (getImagePullSecrets regNoCreds ["reg.example.com/app:v2"]).2 =
      some [registrySecretName "reg.example.com"] ∧
    regNoCreds.username = "" ∧ regNoCreds.password = "" := by
  decide

/-- Claim C3 (amended): a registry credential secret is created iff some
image is on the configured private registry and a username or password is
configured; a pull-secret reference is returned iff some image is on the
private registry — even with no credentials configured, in which case the
reference names a secret that was never created; when no image matches,
nothing is created and nothing is referenced. -/
theorem pull_secret_creation_characterization (cfg : RegistryConfig)
    (images : List String) :
    ((getImagePullSecrets cfg images).1 ≠ none ↔
      ((∃ img ∈ images, imgDomain img = cfg.registry) ∧
        (cfg.username ≠ "" ∨ cfg.password ≠ ""))) ∧
    ((getImagePullSecrets cfg images).2 ≠ none ↔
      (∃ img ∈ images, imgDomain img = cfg.registry)) := by
  have hany : (images.any fun img => imgDomain img == cfg.registry) = true ↔
      ∃ img ∈ images, imgDomain img = cfg.registry := by
    simp [List.any_eq_true]
  have hens : (ensureAuthSecret cfg ≠ none) ↔
      (cfg.username ≠ "" ∨ cfg.password ≠ "") := by
    rw [ensureAuthSecret]
    by_cases hc : cfg.username = "" ∧ cfg.password = ""
    · rw [if_pos hc]
      simp [hc.1, hc.2]
    · rw [if_neg hc]
      simp only [ne_eq, reduceCtorEq, not_false_eq_true, true_iff]
      exact not_and_or.mp hc
  by_cases hu : (images.any fun img => imgDomain img == cfg.registry) = true
  · rw [getImagePullSecrets, if_pos hu]
    exact ⟨by simpa [hany.mp hu] using hens, by simp [hany.mp hu]⟩
  · rw [getImagePullSecrets, if_neg hu]
    have hno : ¬∃ img ∈ images, imgDomain img = cfg.registry :=
      fun hex => hu (hany.mpr hex)
    simp [hno]

/-- Claim C5: a `createPod` invocation whose command list does not have
exactly three elements fails immediately with an error, and no pod-creation
call is issued against the cluster API. -/
theorem createPod_rejects_malformed_cmds (cfg : RegistryConfig)
    (env : CreatePodEnv) (p : CreatePodParams) (h : p.cmds.length ≠ 3) :
    createPod cfg env p = ([], some (PodErr.unexpectedCmds p.cmds)) := by
  unfold createPod
  rw [if_pos h]

/-- Witness for C5: a build command list of two elements fails with no pod
created. -/
theorem createPod_rejects_malformed_cmds_witness :
    createPod regNoCreds envAllOk podParamsTwoCmds =
      ([], some (PodErr.unexpectedCmds ["download", "extract"])) :=
  createPod_rejects_malformed_cmds regNoCreds envAllOk podParamsTwoCmds
    (by decide)

/-- Claim C6: every pod spec constructed by the build pipeline and by the
inspect pipeline has exactly two containers, and both containers mount the
sentinel scratch volume at the same path. -/
theorem pod_specs_two_containers_shared_sentinel (cfg : RegistryConfig)
    (p : CreatePodParams) (q : InspectParams) :
    (buildPodContainers cfg p).length = 2 ∧
    (buildPodContainers cfg p).map sentinelMountPath =
      [some buildIntercontainerPath, some buildIntercontainerPath] ∧
    (inspectPodContainers cfg q).length = 2 ∧
    (inspectPodContainers cfg q).map sentinelMountPath =
      [some buildIntercontainerPath, some buildIntercontainerPath] :=
  ⟨rfl, rfl, rfl, rfl⟩

/-- Claim C10: when the tag of the first destination image is not `latest`,
`createDeployPod` hands `createPod` the destination list extended with
`repository:latest`, and `imageTagAndPush` computes the same extension for
the inspect invocation; a `latest` tag passes the list through unchanged. -/
theorem destinations_extended_with_latest (cfg : RegistryConfig)
    (env : CreatePodEnv) (split : String → String × String)
    (deployCmds : List String) (cpn : Except String String)
    (p : CreatePodParams) (d : String) (rest : List String)
    (hd : p.destinationImages = d :: rest) (hp : p.podName ≠ "") :
    ((split d).2 ≠ "latest" →
      createDeployPod cfg env split deployCmds cpn p =
        createPod cfg env
          { p with
            cmds := deployCmds,
            destinationImages := (d :: rest) ++ [(split d).1 ++ ":latest"] }) ∧
    ((split d).2 = "latest" →
      createDeployPod cfg env split deployCmds cpn p =
        createPod cfg env
          { p with
            cmds := deployCmds,
            destinationImages := d :: rest }) ∧
    (∀ newImage : String,
      ((split newImage).2 ≠ "latest" →
        tagAndPushDestinations split newImage =
          [newImage, (split newImage).1 ++ ":latest"]) ∧
      ((split newImage).2 = "latest" →
        tagAndPushDestinations split newImage = [newImage])) := by
  refine ⟨?_, ?_, ?_⟩
  · intro ht
    unfold createDeployPod
    rw [hd]
    rw [if_neg hp]
    dsimp only
    rw [if_pos ht]
  · intro ht
    unfold createDeployPod
    rw [hd]
    rw [if_neg hp]
    dsimp only
    rw [if_neg (by simp [ht])]
  · intro newImage
    constructor
    · intro ht
      unfold tagAndPushDestinations
      dsimp only
      rw [if_pos ht]
      rfl
    · intro ht
      unfold tagAndPushDestinations
      dsimp only
      rw [if_neg (by simp [ht])]

/-- Witness for C10: a `v2` destination tag gets a `latest` companion (both
in the deploy-pod path and in the inspect destination list). -/
theorem destinations_extended_with_latest_witness :
    createDeployPod regNoCreds envAllOk splitColon deployCmdsSample
        (Except.ok "unused") podParamsDeploy =
      createPod regNoCreds envAllOk
        { podParamsDeploy with
          cmds := deployCmdsSample,
          destinationImages :=
            ["reg.example.com/app:v2", "reg.example.com/app:latest"] } ∧
    tagAndPushDestinations splitColon "reg.example.com/app:v2" =
      ["reg.example.com/app:v2", "reg.example.com/app:latest"] :=
  ⟨(destinations_extended_with_latest regNoCreds envAllOk splitColon
      deployCmdsSample (Except.ok "unused") podParamsDeploy
      "reg.example.com/app:v2" [] rfl (by decide)).1 (by decide),
   ((destinations_extended_with_latest regNoCreds envAllOk splitColon
      deployCmdsSample (Except.ok "unused") podParamsDeploy
      "reg.example.com/app:v2" [] rfl (by decide)).2.2
      "reg.example.com/app:v2").1 (by decide)⟩

/-- Helper: the service-exposure tail never issues a rollback. -/
theorem rollback_not_mem_services (env : DeployEnv) :
    DeployAction.rollback ∉ (deployServiceServices env).1 := by
  unfold deployServiceServices
  split
  · simp
  · split <;> simp

/-- Claim C2: `DeployService` issues a rollback request iff the monitor
failed after the deployment create/update succeeded (a failure before or
during the create/update never triggers rollback); and when the rollback
itself also fails, that failure is reported to the output sink while the
error returned to the caller still wraps the original monitor failure. -/
theorem deployService_rollback_characterization (env : DeployEnv) :
    (DeployAction.rollback ∈ (deployService env).1 ↔
      (appliedOK env = true ∧ env.monitorErr ≠ none)) ∧
    (∀ e re, appliedOK env = true → env.monitorErr = some e →
      env.rollbackErr = some re →
      OutLine.rollbackFailed re ∈ (deployService env).2.1 ∧
      (deployService env).2.2 = some (DeployErr.unitStartup e)) := by
  constructor
  · unfold deployService
    split
    · rename_i e h1
      simp [appliedOK, h1]
    · rename_i h1
      split
      · rename_i e h2
        simp [appliedOK, h2]
      · rename_i h2
        split
        · rename_i e h3
          simp [appliedOK, h3]
        · rename_i h3
          split
          · rename_i e h4
            simp [appliedOK, h4]
          · rename_i h4
            split
            · rename_i e h5
              simp [appliedOK, h5]
            · rename_i h5
              split
              · rename_i e h6
                simp [appliedOK, h6]
              · rename_i h6
                split
                · rename_i e h7
                  split <;>
                    simp [appliedOK, h1, h2, h3, h4, h5, h6, h7]
                · rename_i h7
                  simp [h7, rollback_not_mem_services env]
  · intro e re hae hmon hrb
    have hs : env.nodeContainersErr = none ∧ env.saErr = none ∧
        fatalGetErr env.getDepErr = none ∧ env.listEventsErr = none ∧
        env.createDepPreErr = none ∧ env.applyErr = none := by
      simpa [appliedOK, Bool.and_eq_true, Option.isNone_iff_eq_none,
        and_assoc] using hae
    obtain ⟨h1, h2, h3, h4, h5, h6⟩ := hs
    simp [deployService, h1, h2, h3, h4, h5, h6, hmon, hrb]

/-- Witness for C2: with the monitor failing and the rollback also failing,
rollback is issued, the rollback failure is reported, and the returned
error wraps the monitor failure. -/
theorem deployService_rollback_characterization_witness :
    DeployAction.rollback ∈ (deployService deployEnvRB).1 ∧
    OutLine.rollbackFailed "rollback refused" ∈ (deployService deployEnvRB).2.1 ∧
    (deployService deployEnvRB).2.2 =
      some (DeployErr.unitStartup "monitor timeout") :=
  ⟨(deployService_rollback_characterization deployEnvRB).1.mpr (by decide),
   ((deployService_rollback_characterization deployEnvRB).2 "monitor timeout"
      "rollback refused" (by decide) rfl rfl).1,
   ((deployService_rollback_characterization deployEnvRB).2 "monitor timeout"
      "rollback refused" (by decide) rfl rfl).2⟩

/-- Claim C7 (against the spec-modelled overcommit accessor): with nonzero
declared memory, a zero or unset overcommit factor yields an immediate
configuration error before any request is computed; a nonzero factor yields
a request of the declared memory divided by the factor; and any computed
request was produced by dividing by a provably nonzero factor. -/
theorem overcommit_division_guarded (pf : Option Int) (memory : Int)
    (hm : memory ≠ 0) :
    ((pf = none ∨ pf = some 0) →
      ∃ msg, computeAppResources pf memory = Except.error msg) ∧
    (∀ f, pf = some f → f ≠ 0 →
      computeAppResources pf memory =
        Except.ok { memoryLimit := some memory,
                    memoryRequest := some (memory / f) }) ∧
    (∀ r, computeAppResources pf memory =
        Except.ok { memoryLimit := some memory, memoryRequest := some r } →
      ∃ f, pf = some f ∧ f ≠ 0 ∧ r = memory / f) := by
  refine ⟨?_, ?_, ?_⟩
  · rintro (rfl | rfl)
    · exact ⟨_, rfl⟩
    · exact ⟨_, rfl⟩
  · rintro f rfl hf
    unfold computeAppResources overcommitFactor
    dsimp only
    rw [if_neg hf]
    dsimp only
    rw [if_pos hm]
  · intro r hr
    rcases pf with _ | f
    · rw [computeAppResources] at hr
      exact absurd hr (by simp [overcommitFactor])
    · by_cases hf : f = 0
      · subst hf
        rw [computeAppResources] at hr
        exact absurd hr (by simp [overcommitFactor])
      · refine ⟨f, rfl, hf, ?_⟩
        rw [computeAppResources] at hr
        unfold overcommitFactor at hr
        dsimp only at hr
        rw [if_neg hf] at hr
        dsimp only at hr
        rw [if_pos hm] at hr
        simp only [Except.ok.injEq, ResourceReqs.mk.injEq,
          Option.some.injEq] at hr
        exact hr.2.symm

/-- Witness for C7: memory 10 with factor 2 requests 5 and limits 10. -/
theorem overcommit_division_guarded_witness :
    computeAppResources (some 2) 10 =
      Except.ok { memoryLimit := some 10, memoryRequest := some 5 } :=
  (overcommit_division_guarded (some 2) 10 (by decide)).2.1 2 rfl (by decide)

/-- Claim C9: `CurrentLabels` returns nil labels and a nil error when the
deployment does not exist; any other cluster-API failure is returned as an
error; on success the pod-template labels are returned. -/
theorem currentLabels_absent_not_error :
    (∀ m, currentLabels (Except.error (K8sErr.notFound m)) = Except.ok none) ∧
    (∀ e, isNotFound e = false →
      currentLabels (Except.error e) = Except.error e) ∧
    (∀ d, currentLabels (Except.ok d) = Except.ok (some d.templateLabels)) := by
  refine ⟨fun m => rfl, fun e he => ?_, fun d => rfl⟩
  unfold currentLabels
  dsimp only
  rw [if_neg (by simp [he])]

end TsuruKube
